import Mathlib

/-!
# Verification of the d3-node-client multipart-upload and status-polling core

This file gives a shallow embedding, in Lean 4, of the algorithmic core of the
`dragdropdo/d3-node-client` TypeScript library: the multipart-upload
orchestration (`uploadFile` of both client variants — `D3Client` in
`src/client.ts` and `Dragdropdo` in the second half of `src/types.ts`) and the
status-polling loop (`pollStatus` / `getStatus`).

Modelling conventions:
* JavaScript numbers that hold byte counts or part counts are modelled as
  `Nat` (sizes, indices) or `Int` (values that the code can drive negative,
  such as `bytesUploaded`, and the caller-supplied `parts` option).
* The HTTP layer is abstracted into environment records: each network call is
  a field holding the typed outcome the axios response interceptor would
  deliver (`Except JsError …`).  The traces returned by the model functions
  record which network requests were issued, in order.
* JavaScript falsiness of the relevant values is modelled explicitly:
  `parts || computed` falls through at `0`, `etag || ""` and `!uploadId`
  treat the empty string as absent.
* `Math.round(x)` on the exact rational `bytesUploaded / fileSize * 100` is
  modelled as floor(x + 1/2) (round half toward positive infinity), and the
  `fileSize = 0` case (where JavaScript produces NaN) is modelled as `none`.
* File contents are not modelled — only byte ranges; the chunks' bytes are
  irrelevant to every claim.
-/

/-! ## Errors

The error classes of `src/errors.ts`.  `D3APIError`, `D3ValidationError`,
`D3UploadError` and `D3TimeoutError` all extend the base class
(`DragdropdoError` / `D3ClientError` depending on the variant), so an
`instanceof` test against the base class accepts all of them; `generic`
stands for any other thrown value (a plain `Error`).  The `code`/`details`
payload fields that no claim inspects are omitted; the `details` slot used to
attach a causing error is kept as `cause`. -/

inductive JsError where
  | apiError (msg : String) (status : Nat)
  | dddError (msg : String) (cause : Option JsError)
  | validationError (msg : String)
  | uploadError (msg : String) (cause : Option JsError)
  | timeoutError (msg : String)
  | generic (msg : String)

/-- `error instanceof DragdropdoError || error instanceof D3APIError`
(respectively `D3ClientError` in the other variant): every typed error of the
library passes, a plain `Error` does not. -/
def JsError.isDdd : JsError → Bool
  | .generic _ => false
  | _ => true

/-- The raw `message` property of the error. -/
def JsError.rawMsg : JsError → String
  | .apiError m _ => m
  | .dddError m _ => m
  | .validationError m => m
  | .uploadError m _ => m
  | .timeoutError m => m
  | .generic m => m

/-- `error?.message || "Unknown error"` — the empty message is falsy. -/
def JsError.jsMsg (e : JsError) : String :=
  if e.rawMsg = "" then "Unknown error" else e.rawMsg

/-! ## Part-count computation (`client.ts` 173-176, `types.ts` variant 302-305)

```ts
const chunkSize = 5 * 1024 * 1024; // 5MB per part
const calculatedParts = parts || Math.ceil(fileSize / chunkSize);
const actualParts = Math.max(1, Math.min(calculatedParts, 100));
```
-/

def chunkSize : Nat := 5 * 1024 * 1024

/-- `Math.ceil(a / b)` for natural `a` and positive natural `b`. -/
def ceilDiv (a b : Nat) : Nat := (a + b - 1) / b

/-- `parts || Math.ceil(fileSize / chunkSize)`: the caller-supplied part count
wins unless it is absent or `0` (falsy). -/
def calculatedParts (fileSize : Nat) (parts : Option Int) : Int :=
  match parts with
  | some p => if p = 0 then (ceilDiv fileSize chunkSize : Nat) else p
  | none => (ceilDiv fileSize chunkSize : Nat)

/-- `Math.max(1, Math.min(calculatedParts, 100))`. -/
def actualParts (fileSize : Nat) (parts : Option Int) : Int :=
  max 1 (min (calculatedParts fileSize parts) 100)

/-- The part count as a natural number (it is always in `[1, 100]`), as used
for the loop bound `i < actualParts`. -/
def actualPartsNat (fileSize : Nat) (parts : Option Int) : Nat :=
  (actualParts fileSize parts).toNat

/-- The spec formula of the part-count claim: `clamp(P ?? ceil(S/5MiB), 1, 100)`
with nullish coalescing — a supplied `P = 0` is kept and then clamped to 1.
Stated from the spec wording, for comparison with `actualParts`. -/
def specPartCount (fileSize : Nat) (parts : Option Int) : Int :=
  max 1 (min (parts.getD ((ceilDiv fileSize chunkSize : Nat) : Int)) 100)

/-! ## Per-part byte ranges (`client.ts` 205-231, `types.ts` variant 345-359)

```ts
const chunkSizePerPart = Math.ceil(fileSize / actualParts);
for (let i = 0; i < actualParts; i++) {
  const start = i * chunkSizePerPart;
  const end = Math.min(start + chunkSizePerPart, fileSize);
  ...
}
```
-/

/-- `start = i * chunkSizePerPart`. -/
def partStart (c i : Nat) : Nat := i * c

/-- `end = Math.min(start + chunkSizePerPart, fileSize)`. -/
def partEnd (S c i : Nat) : Nat := min (partStart c i + c) S

/-! ### Arithmetic helpers for `ceilDiv` -/

theorem le_mul_ceilDiv (a : Nat) {b : Nat} (hb : 0 < b) : a ≤ b * ceilDiv a b := by
  unfold ceilDiv
  have h1 := Nat.div_add_mod (a + b - 1) b
  have h2 : (a + b - 1) % b < b := Nat.mod_lt _ hb
  omega

theorem ceilDiv_le_of_le {a b m : Nat} (hb : 0 < b) (h : a ≤ m * b) :
    ceilDiv a b ≤ m := by
  unfold ceilDiv
  have h1 := Nat.div_add_mod (a + b - 1) b
  have h2 : (a + b - 1) % b < b := Nat.mod_lt _ hb
  by_contra hcon
  have h3 : m + 1 ≤ (a + b - 1) / b := by omega
  have h4 : b * (m + 1) ≤ b * ((a + b - 1) / b) := Nat.mul_le_mul_left b h3
  have h5 : b * (m + 1) = b * m + b := by ring
  have h6 : m * b = b * m := Nat.mul_comm m b
  omega

theorem ceilDiv_sub_one_mul_lt {a b : Nat} (ha : 0 < a) (hb : 0 < b) :
    (ceilDiv a b - 1) * b < a := by
  have h1 : ceilDiv a b = (a - 1) / b + 1 := by
    unfold ceilDiv
    have h : a + b - 1 = (a - 1) + b := by omega
    rw [h, Nat.add_div_right _ hb]
  rw [h1]
  simp only [Nat.add_sub_cancel]
  have h2 : (a - 1) / b * b ≤ a - 1 := Nat.div_mul_le_self _ _
  omega

theorem one_le_actualPartsNat (S : Nat) (P : Option Int) :
    1 ≤ actualPartsNat S P := by
  unfold actualPartsNat actualParts
  have h : (1 : Int) ≤ max 1 (min (calculatedParts S P) 100) := le_max_left _ _
  omega

/-- **C1 (counterexample).**  With file size `S = 1` and requested part count
`P = 2` the computed part count is `N = 2`, and the last byte range
`[partStart, partEnd)` is `[1, 1)`, of length `0` — refuting the claim that the
last range's length is strictly greater than `0`. -/
theorem c1_counterexample :
    actualPartsNat 1 (some 2) = 2 ∧
      partEnd 1 (ceilDiv 1 2) 1 - partStart (ceilDiv 1 2) 1 = 0 := by
  constructor <;> decide

/-- **C1 (amended).**  Provided every computed byte range is nonempty — that
is, `(N - 1) * ceil(S / N) < S` — the `N` byte ranges computed by `uploadFile`
are contiguous, non-overlapping, start at `0`, end at `S`, every range but the
last has length exactly `ceil(S / N)`, and the last has length at most
`ceil(S / N)` and strictly greater than `0`.  The proviso always holds when
the part count is not caller-supplied and `S > 0` (second conjunct). -/
theorem c1_chunk_ranges :
    (∀ (S : Nat) (P : Option Int),
      (actualPartsNat S P - 1) * ceilDiv S (actualPartsNat S P) < S →
      (partStart (ceilDiv S (actualPartsNat S P)) 0 = 0 ∧
       (∀ i, i + 1 < actualPartsNat S P →
         partEnd S (ceilDiv S (actualPartsNat S P)) i
           = partStart (ceilDiv S (actualPartsNat S P)) (i + 1)) ∧
       (∀ i j, i < j → j < actualPartsNat S P →
         partEnd S (ceilDiv S (actualPartsNat S P)) i
           ≤ partStart (ceilDiv S (actualPartsNat S P)) j) ∧
       partEnd S (ceilDiv S (actualPartsNat S P)) (actualPartsNat S P - 1) = S ∧
       (∀ i, i + 1 < actualPartsNat S P →
         partEnd S (ceilDiv S (actualPartsNat S P)) i
           - partStart (ceilDiv S (actualPartsNat S P)) i
           = ceilDiv S (actualPartsNat S P)) ∧
       partEnd S (ceilDiv S (actualPartsNat S P)) (actualPartsNat S P - 1)
           - partStart (ceilDiv S (actualPartsNat S P)) (actualPartsNat S P - 1)
           ≤ ceilDiv S (actualPartsNat S P) ∧
       0 < partEnd S (ceilDiv S (actualPartsNat S P)) (actualPartsNat S P - 1)
           - partStart (ceilDiv S (actualPartsNat S P)) (actualPartsNat S P - 1))) ∧
    (∀ S : Nat, 0 < S →
      (actualPartsNat S none - 1) * ceilDiv S (actualPartsNat S none) < S) := by
  constructor
  · intro S P h
    set N := actualPartsNat S P with hN
    have hN1 : 1 ≤ N := one_le_actualPartsNat S P
    set c := ceilDiv S N with hc
    have hSNc : S ≤ N * c := le_mul_ceilDiv S (by omega)
    have hNc : (N - 1) * c + c = N * c := by
      have hsum : (N - 1) + 1 = N := by omega
      calc (N - 1) * c + c = ((N - 1) + 1) * c := by ring
        _ = N * c := by rw [hsum]
    have hfull : ∀ i, i + 1 < N → partEnd S c i = (i + 1) * c := by
      intro i hi
      have h1 : (i + 1) * c ≤ (N - 1) * c := Nat.mul_le_mul_right c (by omega)
      have h2 : (i + 1) * c ≤ S := by omega
      unfold partEnd partStart
      have h3 : i * c + c = (i + 1) * c := by ring
      omega
    refine ⟨by simp [partStart], ?_, ?_, ?_, ?_, ?_, ?_⟩
    · intro i hi
      rw [hfull i hi]; rfl
    · intro i j hij hj
      have h1 : (i + 1) * c ≤ j * c := Nat.mul_le_mul_right c (by omega)
      unfold partEnd partStart
      have h3 : i * c + c = (i + 1) * c := by ring
      omega
    · unfold partEnd partStart
      omega
    · intro i hi
      rw [hfull i hi]
      unfold partStart
      have h3 : (i + 1) * c = i * c + c := by ring
      omega
    · unfold partEnd partStart
      omega
    · unfold partEnd partStart
      omega
  · intro S hS
    have hK : 0 < chunkSize := by decide
    have hpos : 1 ≤ ceilDiv S chunkSize := by
      have h2 := le_mul_ceilDiv S hK
      by_contra hcon
      have h0 : ceilDiv S chunkSize = 0 := by omega
      rw [h0] at h2
      omega
    by_cases hle : ceilDiv S chunkSize ≤ 100
    · -- not clamped: N = ceil(S / 5MiB)
      have hNval : actualPartsNat S none = ceilDiv S chunkSize := by
        unfold actualPartsNat actualParts calculatedParts
        have h1 : ((ceilDiv S chunkSize : Nat) : Int) ≤ 100 := by
          exact_mod_cast hle
        rw [min_eq_left h1]
        have h2 : (1 : Int) ≤ ((ceilDiv S chunkSize : Nat) : Int) := by
          exact_mod_cast hpos
        rw [max_eq_right h2]
        omega
      rw [hNval]
      set N := ceilDiv S chunkSize with hNdef
      have h1 : (N - 1) * chunkSize < S := ceilDiv_sub_one_mul_lt hS hK
      have h2 : S ≤ chunkSize * N := le_mul_ceilDiv S hK
      have h3 : ceilDiv S N ≤ chunkSize := by
        apply ceilDiv_le_of_le (by omega)
        calc S ≤ chunkSize * N := h2
          _ = chunkSize * N := rfl
      calc (N - 1) * ceilDiv S N ≤ (N - 1) * chunkSize :=
            Nat.mul_le_mul_left _ h3
        _ < S := h1
    · -- clamped: N = 100
      have hNval : actualPartsNat S none = 100 := by
        unfold actualPartsNat actualParts calculatedParts
        have h1 : (100 : Int) ≤ ((ceilDiv S chunkSize : Nat) : Int) := by
          exact_mod_cast (by omega : (100 : Nat) ≤ ceilDiv S chunkSize)
        rw [min_eq_right h1]
        decide
      rw [hNval]
      have hbig : 100 * chunkSize < S := by
        by_contra hcon
        have h4 : S ≤ chunkSize * 100 := by omega
        have := ceilDiv_le_of_le hK (a := S) (m := 100)
          (by omega : S ≤ 100 * chunkSize)
        omega
      have hS2 : 524288000 < S := by
        have hc : chunkSize = 5242880 := by decide
        omega
      unfold ceilDiv
      omega

/-- Witness for `c1_chunk_ranges` at `S = 10`, `P = 2` (so `N = 2`, `c = 5`),
and `S = 7` for the default-part-count conjunct. -/
theorem c1_chunk_ranges_witness :
    (actualPartsNat 10 (some 2) - 1) * ceilDiv 10 (actualPartsNat 10 (some 2)) < 10 ∧
    partEnd 10 (ceilDiv 10 (actualPartsNat 10 (some 2))) (actualPartsNat 10 (some 2) - 1) = 10 ∧
    0 < (7 : Nat) := by
  refine ⟨by decide, ?_, by decide⟩
  have h := (c1_chunk_ranges.1 10 (some 2) (by decide)).2.2.2.1
  exact h

/-- **C2 (counterexample).**  At file size `S = 6 MiB` with a supplied part
count of `0`, the code computes `2` parts (JavaScript `parts || …` treats `0`
as absent), while the claim's formula `clamp(P ?? ceil(S/5MiB), 1, 100)`
yields `clamp(0, 1, 100) = 1`. -/
theorem c2_counterexample :
    actualParts (6 * 1024 * 1024) (some 0) = 2 ∧
      specPartCount (6 * 1024 * 1024) (some 0) = 1 := by
  constructor <;> decide

/-- **C2 (amended).**  For every file size `S` and requested part count `P`
that is either absent or nonzero, the part count used by `uploadFile` equals
`clamp(P ?? ceil(S/5MiB), 1, 100)`; a supplied `P = 0` is instead treated as
absent (JavaScript `||`), falling back to the size-derived count. -/
theorem c2_part_count (S : Nat) (P : Option Int) (h : P ≠ some 0) :
    actualParts S P = specPartCount S P := by
  unfold actualParts specPartCount calculatedParts
  match P with
  | none => rfl
  | some p =>
    have hp : p ≠ 0 := by
      intro hc
      exact h (by rw [hc])
    simp [hp]

/-- Witness for `c2_part_count` at `S = 6 MiB`, `P = 7`. -/
theorem c2_part_count_witness :
    (some (7 : Int) ≠ some (0 : Int)) ∧
      actualParts (6 * 1024 * 1024) (some 7) = specPartCount (6 * 1024 * 1024) (some 7) :=
  ⟨by decide, c2_part_count (6 * 1024 * 1024) (some 7) (by decide)⟩

/-! ## Upload source and filesystem model

The `file` option is a path, an in-memory `Buffer`, or anything else (a
stream, which both variants reject).  The filesystem maps each existing path
to its file size (`fs.existsSync` + `fs.statSync(file).size`); file contents
are not modelled. -/

inductive FileSource where
  | path (p : String)
  | buffer (len : Nat)
  | stream

/-- Progress record passed to `onProgress` (`types.ts` interface
`UploadProgress`).  `bytesUploaded` is an `Int` because the code adds the raw
`end - start` difference, which JavaScript lets go negative on degenerate
ranges; `percentage` is `none` when JavaScript would produce `NaN`
(zero-byte file). -/
structure UploadProgress where
  currentPart : Nat
  totalParts : Nat
  bytesUploaded : Int
  totalBytes : Nat
  percentage : Option Int
deriving Repr, DecidableEq

/-- `Math.round((bytesUploaded / fileSize) * 100)` on exact rationals:
floor(x + 1/2), i.e. round half toward positive infinity, which is
JavaScript `Math.round`. -/
def jsRound (num : Int) (den : Nat) : Int :=
  Int.fdiv (2 * num + (den : Int)) (2 * (den : Int))

/-- Builds the progress record reported after part `cur` (1-indexed). -/
def mkProgress (cur N : Nat) (bytes : Int) (S : Nat) : UploadProgress :=
  ⟨cur, N, bytes, S,
    if S = 0 then none else some (jsRound (bytes * 100) S)⟩

/-! ## The `D3Client` variant (`src/client.ts`) -/

/-- The negotiate response of `POST /v1/external/upload`, as destructured by
`client.ts` line 196: `const { fileKey, presignedUrls } = ...`. -/
structure D3NegotiateResponse where
  fileKey : String
  presignedUrls : List String

/-- Mock network environment for `D3Client.uploadFile`: the typed outcome of
the negotiate POST and of each per-part PUT (whose response body `client.ts`
ignores). -/
structure D3Env where
  negotiate : Except JsError D3NegotiateResponse
  put : Nat → Except JsError Unit

/-- Network-interaction trace of one `D3Client.uploadFile` call:
whether the negotiate POST was issued, the PUTs issued (part index, byte
range start, byte range end, in order), and the `onProgress` invocations. -/
structure D3Trace where
  negotiated : Bool
  puts : List (Nat × Nat × Nat)
  progress : List UploadProgress

def D3Trace.empty : D3Trace := ⟨false, [], []⟩

/-- Result value of `D3Client.uploadFile`. -/
structure D3UploadResult where
  fileKey : String
  presignedUrls : List String

/-- The outer catch of both `uploadFile` variants (`client.ts` 257-263,
`types.ts` variant 437-443): typed library errors pass through unchanged,
anything else is wrapped into `D3UploadError` with the original attached. -/
def uploadCatch (e : JsError) : JsError :=
  if e.isDdd then e else .uploadError ("Upload failed: " ++ e.jsMsg) (some e)

/-- The part-upload loop of `client.ts` 225-254, from part index `i` with
`rem` parts remaining and `bytes` uploaded so far.  Returns the PUT trace,
the progress reports, and `some e` if a PUT failed with `e`. -/
def uploadLoopD3 (env : D3Env) (c S N : Nat) :
    Nat → Int → Nat → List (Nat × Nat × Nat) × List UploadProgress × Option JsError
  | _, _, 0 => ([], [], none)
  | i, bytes, rem + 1 =>
    match env.put i with
    | .error e => ([(i, partStart c i, partEnd S c i)], [], some e)
    | .ok _ =>
      let bytes2 := bytes + ((partEnd S c i : Int) - (partStart c i : Int))
      let t := uploadLoopD3 env c S N (i + 1) bytes2 rem
      ((i, partStart c i, partEnd S c i) :: t.1,
       mkProgress (i + 1) N bytes2 S :: t.2.1,
       t.2.2)

/-- The body of `D3Client.uploadFile` after the file size is known
(`client.ts` 173-263): negotiate, part-count mismatch check, sequential part
PUTs with progress reporting.  The MIME-type detection only shapes the
request body and is not modelled. -/
def uploadFileD3Sized (env : D3Env) (parts : Option Int) (S : Nat) :
    D3Trace × Except JsError D3UploadResult :=
  let N := actualPartsNat S parts
  match env.negotiate with
  | .error e => (⟨true, [], []⟩, .error (uploadCatch e))
  | .ok r =>
    if r.presignedUrls.length ≠ N then
      (⟨true, [], []⟩, .error (uploadCatch (.uploadError
        ("Mismatch: requested " ++ toString N ++ " parts but received "
          ++ toString r.presignedUrls.length ++ " presigned URLs") none)))
    else
      let c := ceilDiv S N
      let t := uploadLoopD3 env c S N 0 0 N
      match t.2.2 with
      | some e => (⟨true, t.1, t.2.1⟩, .error (uploadCatch e))
      | none => (⟨true, t.1, t.2.1⟩, .ok ⟨r.fileKey, r.presignedUrls⟩)

/-- `D3Client.uploadFile` (`client.ts` 142-264): validation of the file name
and the source, then the sized body.  The second stream check inside the
`try` block (`client.ts` 219-222) is unreachable — the same check already
ran at lines 159-171 — and is therefore not a separate branch here. -/
def uploadFileD3 (fs : String → Option Nat) (env : D3Env) (file : FileSource)
    (fileName : String) (parts : Option Int) :
    D3Trace × Except JsError D3UploadResult :=
  if fileName = "" then
    (D3Trace.empty, .error (.validationError "fileName is required"))
  else
    match file with
    | .path p =>
      match fs p with
      | none => (D3Trace.empty, .error (.validationError ("File not found: " ++ p)))
      | some S => uploadFileD3Sized env parts S
    | .buffer len => uploadFileD3Sized env parts len
    | .stream =>
      (D3Trace.empty, .error (.validationError
        "Stream uploads are not supported. Please use file path or Buffer."))

/-! ## The `Dragdropdo` variant (second half of `src/types.ts`) -/

/-- The negotiate response of `POST /v1/biz/initiate-upload` after the
snake_case/camelCase normalization (`types.ts` variant 325-332):
`fileKey`, optional `uploadId` and `objectName`, and the presigned URL list
(defaulted to `[]` when absent — an absent list is simply the empty list
here). -/
structure DddNegotiateResponse where
  fileKey : String
  uploadId : Option String
  presignedUrls : List String
  objectName : Option String

/-- Mock network environment for `Dragdropdo.uploadFile`.  A per-part PUT
either fails with a typed error or succeeds carrying the optional `ETag`
response header; the completion POST either fails or succeeds. -/
structure DddEnv where
  negotiate : Except JsError DddNegotiateResponse
  put : Nat → Except JsError (Option String)
  complete : Except JsError Unit

/-- The payload sent to `POST /v1/biz/complete-upload` (`types.ts` variant
397-408): file key, upload id, optional object name, and the ordered
`{etag, part_number}` list. -/
structure CompletePayload where
  fileKey : String
  uploadId : String
  objectName : Option String
  parts : List (String × Nat)
deriving Repr, DecidableEq

/-- Network-interaction trace of one `Dragdropdo.uploadFile` call.
`completeCalled` holds the payload of the completion POST when that request
was issued (whether or not it succeeded). -/
structure DddTrace where
  negotiated : Bool
  puts : List (Nat × Nat × Nat)
  progress : List UploadProgress
  completeCalled : Option CompletePayload

def DddTrace.empty : DddTrace := ⟨false, [], [], none⟩

/-- Result value of `Dragdropdo.uploadFile` (the snake_case/camelCase dual
fields of `types.ts` variant 426-436 collapse to one copy each). -/
structure DddUploadResult where
  fileKey : String
  uploadId : String
  presignedUrls : List String
  objectName : Option String

/-- `etag.replace(/^"|"$/g, "")` — strip one leading and one trailing quote
character, modelled on the character list of the string. -/
def stripQuotes (s : String) : String :=
  let l1 : List Char :=
    match s.data with
    | [] => []
    | a :: rest => if a = Char.ofNat 34 then rest else a :: rest
  let l2 : List Char := if l1.getLast? = some (Char.ofNat 34) then l1.dropLast else l1
  String.mk l2

/-- The wrapping applied to a completion-call failure (`types.ts` variant
409-424): both branches produce a `D3UploadError` whose message names the
completion step, with the original error attached; untyped errors contribute
`error?.message || "Unknown error"`. -/
def completeWrap (e : JsError) : JsError :=
  if e.isDdd then
    .uploadError ("Failed to complete upload: " ++ e.rawMsg) (some e)
  else
    .uploadError ("Failed to complete upload: " ++ e.jsMsg) (some e)

/-- The part-upload loop of `types.ts` variant 353-394: PUT, extract the
`ETag` header (`etag || ""`, failing when falsy), record the
quote-stripped `{etag, part_number}` pair, then report progress.  Returns
the PUT trace, the progress reports, and either the accumulated part list or
the error that aborted the loop. -/
def uploadLoopDdd (env : DddEnv) (c S N : Nat) :
    Nat → Int → Nat →
      List (Nat × Nat × Nat) × List UploadProgress × Except JsError (List (String × Nat))
  | _, _, 0 => ([], [], .ok [])
  | i, bytes, rem + 1 =>
    match env.put i with
    | .error e => ([(i, partStart c i, partEnd S c i)], [], .error e)
    | .ok etagHdr =>
      let etag := etagHdr.getD ""
      if etag = "" then
        ([(i, partStart c i, partEnd S c i)], [],
         .error (.uploadError ("Failed to get ETag for part " ++ toString (i + 1)) none))
      else
        let bytes2 := bytes + ((partEnd S c i : Int) - (partStart c i : Int))
        let t := uploadLoopDdd env c S N (i + 1) bytes2 rem
        ((i, partStart c i, partEnd S c i) :: t.1,
         mkProgress (i + 1) N bytes2 S :: t.2.1,
         t.2.2.map ((stripQuotes etag, i + 1) :: ·))

/-- `Dragdropdo.uploadFile` (`types.ts` variant 281-444): validation (the
source must be an existing path — Buffers are rejected by this variant),
negotiate, part-count mismatch check, upload-id check, sequential part PUTs
with ETag capture and progress reporting, and the completion POST whose
failure is wrapped by `completeWrap`. -/
def uploadFileDdd (fs : String → Option Nat) (env : DddEnv) (file : FileSource)
    (fileName : String) (parts : Option Int) :
    DddTrace × Except JsError DddUploadResult :=
  if fileName = "" then
    (DddTrace.empty, .error (.validationError "fileName is required"))
  else
    match file with
    | .buffer _ =>
      (DddTrace.empty, .error (.validationError "file must be a file path string"))
    | .stream =>
      (DddTrace.empty, .error (.validationError "file must be a file path string"))
    | .path p =>
      match fs p with
      | none => (DddTrace.empty, .error (.validationError ("File not found: " ++ p)))
      | some S =>
        let N := actualPartsNat S parts
        match env.negotiate with
        | .error e => (⟨true, [], [], none⟩, .error (uploadCatch e))
        | .ok r =>
          if r.presignedUrls.length ≠ N then
            (⟨true, [], [], none⟩, .error (uploadCatch (.uploadError
              ("Mismatch: requested " ++ toString N ++ " parts but received "
                ++ toString r.presignedUrls.length ++ " presigned URLs") none)))
          else if r.uploadId.getD "" = "" then
            (⟨true, [], [], none⟩, .error (uploadCatch (.uploadError
              "Upload ID not received from server" none)))
          else
            let c := ceilDiv S N
            let t := uploadLoopDdd env c S N 0 0 N
            match t.2.2 with
            | .error e => (⟨true, t.1, t.2.1, none⟩, .error (uploadCatch e))
            | .ok uploadParts =>
              let payload : CompletePayload :=
                ⟨r.fileKey, r.uploadId.getD "", r.objectName, uploadParts⟩
              match env.complete with
              | .error ce =>
                (⟨true, t.1, t.2.1, some payload⟩,
                 .error (uploadCatch (completeWrap ce)))
              | .ok _ =>
                (⟨true, t.1, t.2.1, some payload⟩,
                 .ok ⟨r.fileKey, r.uploadId.getD "", r.presignedUrls, r.objectName⟩)

/-! ## Status model and polling (`client.ts` 546-645, `types.ts` variant 731-843) -/

/-- Overall / per-file status values. -/
inductive OpStatus where
  | queued
  | running
  | completed
  | failed
deriving Repr, DecidableEq

/-- Per-file entry of a status response (`types.ts` interface
`FileTaskStatus`). -/
structure FileTaskStatus where
  fileKey : String
  status : OpStatus
  downloadLink : Option String
  errorCode : Option String
  errorMessage : Option String
deriving Repr, DecidableEq

/-- A status response (`types.ts` interface `StatusResponse`). -/
structure StatusResponse where
  operationStatus : OpStatus
  filesData : List FileTaskStatus
deriving Repr, DecidableEq

/-- `getStatus` (`client.ts` 546-573): the `mainTaskId` validation happens
before the `try` block and before any network request; a typed error from the
GET passes through the catch unchanged, an untyped one is wrapped.  The
response-shape normalization (snake_case mapping) is abstracted into the
already-parsed `StatusResponse` carried by the mock network outcome `net`.
The optional `fileTaskId` only extends the request URL and is not modelled.
Returns the number of network requests issued (`0` or `1`) together with the
outcome. -/
def getStatusRun (mainTaskId : String) (net : Except JsError StatusResponse) :
    Nat × Except JsError StatusResponse :=
  if mainTaskId = "" then
    (0, .error (.validationError "mainTaskId is required"))
  else
    match net with
    | .ok s => (1, .ok s)
    | .error e =>
      (1, .error (if e.isDdd then e
        else .dddError ("Failed to get status: " ++ e.jsMsg) (some e)))

/-- How one `pollStatus` promise settles. `pending` is a model artifact: the
scripted mock status endpoint ran out of responses while the poll loop was
still scheduling further iterations. -/
inductive PollOutcome where
  | ok (s : StatusResponse)
  | err (e : JsError)
  | pending

/-- Observable behavior of one `pollStatus` call: how many status fetches
(network GETs) were issued, the arguments of the `onUpdate` invocations in
order, and how the promise settled. -/
structure PollTrace where
  nets : Nat
  updates : List StatusResponse
  outcome : PollOutcome

/-- One scripted poll iteration: the outcome the status GET would deliver,
and `some e` when the `onUpdate` observer throws `e` on that iteration. -/
def PollScript : Type := List (Except JsError StatusResponse × Option JsError)

/-- The polling loop of `pollStatus` (`client.ts` 608-644).  Time model: the
k-th iteration (`k = 0, 1, …`) starts at elapsed time `k * interval` — the
first runs immediately, each later one after a `setTimeout(poll, interval)`,
and fetches are idealized as instantaneous.  Each iteration, in source
order: (1) the timeout check `Date.now() - startTime > timeout` rejects with
`D3TimeoutError` before anything else; (2) `getStatus` — a `mainTaskId`
validation failure or fetch failure rejects the promise; (3) `onUpdate` is
invoked, and an exception it throws rejects the promise; (4) a terminal
`operationStatus` (`completed` or `failed`) resolves the promise with that
status; (5) otherwise the next iteration is scheduled. -/
def pollAux (mainTaskId : String) (interval timeout : Nat) :
    Nat → PollScript → PollTrace
  | _, [] => ⟨0, [], .pending⟩
  | k, (netR, updR) :: rest =>
    if k * interval > timeout then
      ⟨0, [], .err (.timeoutError
        ("Polling timed out after " ++ toString timeout ++ "ms"))⟩
    else
      match getStatusRun mainTaskId netR with
      | (n, .error e) => ⟨n, [], .err e⟩
      | (n, .ok s) =>
        match updR with
        | some e => ⟨n, [s], .err e⟩
        | none =>
          if s.operationStatus = .completed ∨ s.operationStatus = .failed then
            ⟨n, [s], .ok s⟩
          else
            let t := pollAux mainTaskId interval timeout (k + 1) rest
            ⟨n + t.nets, s :: t.updates, t.outcome⟩

/-- `pollStatus` (`client.ts` 597-645): defaults `interval = 2000`,
`timeout = 300000` for absent options, then the polling loop from elapsed
time `0`. -/
def pollStatusRun (mainTaskId : String) (interval timeout : Option Nat)
    (script : PollScript) : PollTrace :=
  pollAux mainTaskId (interval.getD 2000) (timeout.getD 300000) 0 script

/-! ## Claim C5: part-count mismatch fails fast -/

/-- **C5.**  If the negotiate response carries a number of presigned URLs
different from the computed part count, `uploadFile` fails with the
`D3UploadError` mismatch message, no part PUT is ever issued, and no
completion call is made (the URL list is never truncated or padded). -/
theorem c5_mismatch_fails_fast (fs : String → Option Nat) (env : DddEnv)
    (p fileName : String) (parts : Option Int) (S : Nat)
    (r : DddNegotiateResponse) (hn : fileName ≠ "") (hfs : fs p = some S)
    (hneg : env.negotiate = .ok r)
    (hlen : r.presignedUrls.length ≠ actualPartsNat S parts) :
    (uploadFileDdd fs env (.path p) fileName parts).2
      = .error (.uploadError
          ("Mismatch: requested " ++ toString (actualPartsNat S parts)
            ++ " parts but received " ++ toString r.presignedUrls.length
            ++ " presigned URLs") none)
    ∧ (uploadFileDdd fs env (.path p) fileName parts).1.puts = []
    ∧ (uploadFileDdd fs env (.path p) fileName parts).1.completeCalled = none := by
  simp [uploadFileDdd, hn, hfs, hneg, hlen, uploadCatch, JsError.isDdd]

/-- Witness for `c5_mismatch_fails_fast`: a 10-byte file uploaded with
`parts: 2` against a negotiate response carrying a single presigned URL. -/
theorem c5_mismatch_fails_fast_witness :
    (uploadFileDdd (fun q => if q = "f" then some 10 else none)
        ⟨.ok ⟨"k", some "u", ["a"], none⟩, fun _ => .ok none, .ok ()⟩
        (.path "f") "n" (some 2)).2
      = .error (.uploadError
          ("Mismatch: requested " ++ toString (actualPartsNat 10 (some 2))
            ++ " parts but received "
            ++ toString (["a"] : List String).length
            ++ " presigned URLs") none)
    ∧ (uploadFileDdd (fun q => if q = "f" then some 10 else none)
        ⟨.ok ⟨"k", some "u", ["a"], none⟩, fun _ => .ok none, .ok ()⟩
        (.path "f") "n" (some 2)).1.puts = []
    ∧ (uploadFileDdd (fun q => if q = "f" then some 10 else none)
        ⟨.ok ⟨"k", some "u", ["a"], none⟩, fun _ => .ok none, .ok ()⟩
        (.path "f") "n" (some 2)).1.completeCalled = none :=
  c5_mismatch_fails_fast (fun q => if q = "f" then some 10 else none)
    ⟨.ok ⟨"k", some "u", ["a"], none⟩, fun _ => .ok none, .ok ()⟩
    "f" "n" (some 2) 10 ⟨"k", some "u", ["a"], none⟩
    (by decide) rfl rfl (by decide)

/-! ## Claim C8: validation errors precede any network request -/

/-- **C8.**  A missing required caller argument fails with a
`D3ValidationError` raised before any network request: empty `fileName`
(conjunct 1), a path that does not exist (conjunct 2), a source that is
neither an existing path nor a Buffer (conjunct 3, a stream), an empty
`mainTaskId` to `getStatus` (conjunct 4) and to `pollStatus` (conjunct 5).
In each case the returned trace records zero network requests. -/
theorem c8_validation_before_network :
    (∀ fs env file parts,
      uploadFileD3 fs env file "" parts
        = (D3Trace.empty, .error (.validationError "fileName is required"))) ∧
    (∀ fs env p fileName parts, fileName ≠ "" → fs p = none →
      uploadFileD3 fs env (.path p) fileName parts
        = (D3Trace.empty,
           .error (.validationError ("File not found: " ++ p)))) ∧
    (∀ fs env fileName parts, fileName ≠ "" →
      uploadFileD3 fs env .stream fileName parts
        = (D3Trace.empty, .error (.validationError
            "Stream uploads are not supported. Please use file path or Buffer."))) ∧
    (∀ net, getStatusRun "" net
        = (0, .error (.validationError "mainTaskId is required"))) ∧
    (∀ interval timeout it rest,
      pollStatusRun "" interval timeout (it :: rest)
        = ⟨0, [], .err (.validationError "mainTaskId is required")⟩) := by
  refine ⟨?_, ?_, ?_, ?_, ?_⟩
  · intro fs env file parts
    simp [uploadFileD3]
  · intro fs env p fileName parts hn hfs
    simp [uploadFileD3, hn, hfs]
  · intro fs env fileName parts hn
    simp [uploadFileD3, hn]
  · intro net
    simp [getStatusRun]
  · intro interval timeout it rest
    obtain ⟨netR, updR⟩ := it
    simp [pollStatusRun, pollAux, getStatusRun]

/-- Witness for `c8_validation_before_network` at concrete inputs. -/
theorem c8_validation_before_network_witness :
    uploadFileD3 (fun _ => none) ⟨.ok ⟨"k", []⟩, fun _ => .ok ()⟩
        (.path "nope") "n" none
      = (D3Trace.empty, .error (.validationError "File not found: nope"))
    ∧ pollStatusRun "" (some 7) (some 7) [(.ok ⟨.running, []⟩, none)]
      = ⟨0, [], .err (.validationError "mainTaskId is required")⟩ :=
  ⟨c8_validation_before_network.2.1 (fun _ => none)
      ⟨.ok ⟨"k", []⟩, fun _ => .ok ()⟩ "nope" "n" none (by decide) rfl,
   c8_validation_before_network.2.2.2.2 (some 7) (some 7)
      (.ok ⟨.running, []⟩, none) []⟩

/-! ## Claim C4: the timeout check precedes the status fetch -/

/-- **C4.**  In every iteration of the polling loop (any iteration index
`k`, any pending script), if the elapsed time strictly exceeds the
configured timeout, the poll rejects with a `D3TimeoutError` naming the
configured timeout, issues zero status fetches in that iteration (the
scripted fetch outcome `it` is never consulted), and invokes the observer
zero further times. -/
theorem c4_timeout_check_first (mainTaskId : String) (interval timeout k : Nat)
    (it : Except JsError StatusResponse × Option JsError) (rest : PollScript)
    (h : k * interval > timeout) :
    pollAux mainTaskId interval timeout k (it :: rest)
      = ⟨0, [], .err (.timeoutError
          ("Polling timed out after " ++ toString timeout ++ "ms"))⟩ := by
  obtain ⟨netR, updR⟩ := it
  simp [pollAux, h]

/-- Witness for `c4_timeout_check_first`: the seventh iteration
(`k = 6`) of a poll with `interval = 200`, `timeout = 1000` — elapsed
`1200 > 1000`. -/
theorem c4_timeout_check_first_witness :
    pollAux "t" 200 1000 6 [(.ok ⟨.running, []⟩, none)]
      = ⟨0, [], .err (.timeoutError
          ("Polling timed out after " ++ toString 1000 ++ "ms"))⟩ :=
  c4_timeout_check_first "t" 200 1000 6 (.ok ⟨.running, []⟩, none) []
    (by decide)

/-! ## Claim C3: poll resolves after running, running, completed -/

/-- **C3 (counterexample).**  A `pollStatus` call against the very status
sequence of the claim (running, running, completed) but with `interval =
2000` and `timeout = 100` performs exactly one status fetch and rejects
with a `D3TimeoutError` — not three fetches and not a resolution — because
the second iteration's timeout check fires first.  The claim as stated
(quantified over every `pollStatus` call) is therefore false. -/
theorem c3_counterexample :
    pollStatusRun "t" (some 2000) (some 100)
      [(.ok ⟨.running, []⟩, none), (.ok ⟨.running, []⟩, none),
       (.ok ⟨.completed, []⟩, none)]
      = ⟨1, [⟨.running, []⟩],
          .err (.timeoutError ("Polling timed out after " ++ toString 100 ++ "ms"))⟩ := by
  simp [pollStatusRun, pollAux, getStatusRun]

/-- **C3 (amended).**  For every `pollStatus` call whose configured budget
allows three polls (`2 * interval ≤ timeout`, true in particular for the
defaults 2000/300000) with a nonempty tracking id, against a status
sequence that is "running" on the first two fetches and "completed" on the
third: the call performs exactly 3 status fetches, invokes `onUpdate`
exactly 3 times (the third time with the completed status), and resolves
with that same completed status. -/
theorem c3_poll_completed (mainTaskId : String) (hm : mainTaskId ≠ "")
    (interval timeout : Nat) (hb : 2 * interval ≤ timeout)
    (s0 s1 s2 : StatusResponse) (h0 : s0.operationStatus = .running)
    (h1 : s1.operationStatus = .running)
    (h2 : s2.operationStatus = .completed) (rest : PollScript) :
    pollStatusRun mainTaskId (some interval) (some timeout)
      ((.ok s0, none) :: (.ok s1, none) :: (.ok s2, none) :: rest)
      = ⟨3, [s0, s1, s2], .ok s2⟩ := by
  have hk0 : ¬ (0 * interval > timeout) := by omega
  have hk1 : ¬ (1 * interval > timeout) := by omega
  have hk2 : ¬ (2 * interval > timeout) := by omega
  have hka : ¬ timeout < interval := by omega
  have hkb : ¬ timeout < 2 * interval := by omega
  simp [pollStatusRun, pollAux, getStatusRun, hm, hk0, hk1, hk2, hka, hkb,
    h0, h1, h2]

/-- Witness for `c3_poll_completed` with the default interval and timeout. -/
theorem c3_poll_completed_witness :
    pollStatusRun "t" (some 2000) (some 300000)
      ((.ok ⟨.running, []⟩, none) :: (.ok ⟨.running, []⟩, none)
        :: (.ok ⟨.completed, [⟨"k", .completed, some "dl", none, none⟩]⟩, none) :: [])
      = ⟨3, [⟨.running, []⟩, ⟨.running, []⟩,
             ⟨.completed, [⟨"k", .completed, some "dl", none, none⟩]⟩],
          .ok ⟨.completed, [⟨"k", .completed, some "dl", none, none⟩]⟩⟩ :=
  c3_poll_completed "t" (by decide) 2000 300000 (by decide)
    ⟨.running, []⟩ ⟨.running, []⟩
    ⟨.completed, [⟨"k", .completed, some "dl", none, none⟩]⟩
    rfl rfl rfl []

/-! ## Claim C10: a throwing observer rejects the poll -/

theorem pollAux_observer_throw (mainTaskId : String) (hm : mainTaskId ≠ "")
    (interval timeout : Nat) (s : StatusResponse) (e : JsError)
    (rest : PollScript) :
    ∀ (rs : List StatusResponse) (k : Nat),
      (∀ x ∈ rs, x.operationStatus ≠ .completed ∧ x.operationStatus ≠ .failed) →
      (k + rs.length) * interval ≤ timeout →
      pollAux mainTaskId interval timeout k
        (rs.map (fun x => (.ok x, none)) ++ (.ok s, some e) :: rest)
        = ⟨rs.length + 1, rs ++ [s], .err e⟩ := by
  intro rs
  induction rs with
  | nil =>
    intro k hrs hb
    have hk : ¬ (k * interval > timeout) := by
      simp at hb
      omega
    simp [pollAux, getStatusRun, hm, hk]
  | cons x rs ih =>
    intro k hrs hb
    have hx := hrs x (List.mem_cons_self x rs)
    have hk : ¬ (k * interval > timeout) := by
      have h1 : k * interval ≤ (k + (x :: rs).length) * interval :=
        Nat.mul_le_mul_right interval (by omega)
      omega
    have hb2 : (k + 1 + rs.length) * interval ≤ timeout := by
      have h1 : k + 1 + rs.length = k + (x :: rs).length := by
        simp
        omega
      rw [h1]
      exact hb
    have ih2 := ih (k + 1) (fun y hy => hrs y (List.mem_cons_of_mem x hy)) hb2
    simp [pollAux, getStatusRun, hm, hk, hx.1, hx.2, ih2]
    omega

/-- **C10.**  If the `onUpdate` observer throws `e` on some iteration of a
`pollStatus` call (after `rs.length` earlier in-budget iterations that all
observed non-terminal statuses), the returned promise rejects with that
same `e`, the observer was invoked once per fetch (the last time with the
status of the throwing iteration), and exactly `rs.length + 1` status
fetches were issued — none after the throw, whatever the rest of the
script holds. -/
theorem c10_observer_throw (mainTaskId : String) (hm : mainTaskId ≠ "")
    (interval timeout : Nat) (rs : List StatusResponse)
    (hrs : ∀ x ∈ rs, x.operationStatus ≠ .completed ∧ x.operationStatus ≠ .failed)
    (hb : rs.length * interval ≤ timeout) (s : StatusResponse) (e : JsError)
    (rest : PollScript) :
    pollStatusRun mainTaskId (some interval) (some timeout)
      (rs.map (fun x => (.ok x, none)) ++ (.ok s, some e) :: rest)
      = ⟨rs.length + 1, rs ++ [s], .err e⟩ := by
  have h := pollAux_observer_throw mainTaskId hm interval timeout s e rest rs 0
    hrs (by rw [Nat.zero_add]; exact hb)
  simpa [pollStatusRun] using h

/-- Witness for `c10_observer_throw`: the observer throws on the second
iteration; a third scripted fetch exists but is never issued. -/
theorem c10_observer_throw_witness :
    pollStatusRun "t" (some 10) (some 1000)
      ([⟨.running, []⟩].map (fun x => (.ok x, none))
        ++ (.ok ⟨.running, []⟩, some (.generic "boom"))
          :: [(.ok ⟨.completed, []⟩, none)])
      = ⟨2, [⟨.running, []⟩, ⟨.running, []⟩], .err (.generic "boom")⟩ :=
  c10_observer_throw "t" (by decide) 10 1000 [⟨.running, []⟩]
    (by intro x hx; simp at hx; rw [hx]; exact ⟨by decide, by decide⟩)
    (by decide) ⟨.running, []⟩ (.generic "boom") [(.ok ⟨.completed, []⟩, none)]

/-! ## Loop lemmas for the `Dragdropdo` part-upload loop -/

/-- When from part `i` on every PUT in sight succeeds with a nonempty
`ETag`, the loop returns the ordered quote-stripped `{etag, part_number}`
list. -/
theorem uploadLoopDdd_parts (env : DddEnv) (c S N : Nat) (et : Nat → String) :
    ∀ (rem i : Nat) (bytes : Int),
      (∀ j, i ≤ j → j < i + rem → env.put j = .ok (some (et j)) ∧ et j ≠ "") →
      (uploadLoopDdd env c S N i bytes rem).2.2
        = .ok ((List.range' i rem).map (fun j => (stripQuotes (et j), j + 1))) := by
  intro rem
  induction rem with
  | zero => intro i bytes _; simp [uploadLoopDdd]
  | succ n ih =>
    intro i bytes h
    have h0 := h i (Nat.le_refl i) (by omega)
    have hrec := ih (i + 1)
      (bytes + ((partEnd S c i : Int) - (partStart c i : Int)))
      (fun j hj1 hj2 => h j (by omega) (by omega))
    simp [uploadLoopDdd, h0.1, h0.2, hrec, List.range'_succ, Except.map]

/-- A PUT failure at part `i + k` (all earlier parts fine) aborts the loop
with that very error. -/
theorem uploadLoopDdd_put_err (env : DddEnv) (c S N : Nat) (et : Nat → String)
    (e : JsError) :
    ∀ (k rem i : Nat) (bytes : Int), k < rem →
      (∀ j, i ≤ j → j < i + k → env.put j = .ok (some (et j)) ∧ et j ≠ "") →
      env.put (i + k) = .error e →
      (uploadLoopDdd env c S N i bytes rem).2.2 = .error e := by
  intro k
  induction k with
  | zero =>
    intro rem i bytes hk h hp
    obtain ⟨rem2, rfl⟩ : ∃ r, rem = r + 1 := ⟨rem - 1, by omega⟩
    simp only [Nat.add_zero] at hp
    simp [uploadLoopDdd, hp]
  | succ m ih =>
    intro rem i bytes hk h hp
    obtain ⟨rem2, rfl⟩ : ∃ r, rem = r + 1 := ⟨rem - 1, by omega⟩
    have h0 := h i (Nat.le_refl i) (by omega)
    have hp2 : env.put (i + 1 + m) = .error e := by
      have hx : i + 1 + m = i + (m + 1) := by omega
      rw [hx]; exact hp
    have ih2 := ih rem2 (i + 1)
      (bytes + ((partEnd S c i : Int) - (partStart c i : Int)))
      (by omega) (fun j hj1 hj2 => h j (by omega) (by omega)) hp2
    simp [uploadLoopDdd, h0.1, h0.2, ih2, Except.map]

/-- A PUT at part `i + k` whose response carries no (or an empty) `ETag`
header (all earlier parts fine) aborts the loop with the `D3UploadError`
naming part `i + k + 1`. -/
theorem uploadLoopDdd_noetag (env : DddEnv) (c S N : Nat) (et : Nat → String)
    (o : Option String) :
    ∀ (k rem i : Nat) (bytes : Int), k < rem →
      (∀ j, i ≤ j → j < i + k → env.put j = .ok (some (et j)) ∧ et j ≠ "") →
      env.put (i + k) = .ok o → o.getD "" = "" →
      (uploadLoopDdd env c S N i bytes rem).2.2
        = .error (.uploadError
            ("Failed to get ETag for part " ++ toString (i + k + 1)) none) := by
  intro k
  induction k with
  | zero =>
    intro rem i bytes hk h hp ho
    obtain ⟨rem2, rfl⟩ : ∃ r, rem = r + 1 := ⟨rem - 1, by omega⟩
    simp only [Nat.add_zero] at hp ⊢
    simp [uploadLoopDdd, hp, ho]
  | succ m ih =>
    intro rem i bytes hk h hp ho
    obtain ⟨rem2, rfl⟩ : ∃ r, rem = r + 1 := ⟨rem - 1, by omega⟩
    have h0 := h i (Nat.le_refl i) (by omega)
    have hp2 : env.put (i + 1 + m) = .ok o := by
      have hx : i + 1 + m = i + (m + 1) := by omega
      rw [hx]; exact hp
    have ih2 := ih rem2 (i + 1)
      (bytes + ((partEnd S c i : Int) - (partStart c i : Int)))
      (by omega) (fun j hj1 hj2 => h j (by omega) (by omega)) hp2 ho
    have hx : i + 1 + m + 1 = i + (m + 1) + 1 := by omega
    rw [hx] at ih2
    simp [uploadLoopDdd, h0.1, h0.2, ih2, Except.map]

/-! ## Claim C7: ETag capture, quote stripping, and the missing-ETag error -/

/-- **C7.**  (1) A token received with literal surrounding quote characters,
`"abc123"`, is stripped to `abc123`.  (2) For every part transfer whose
response carries a (nonempty) integrity token, the token is stored
quote-stripped, with its 1-indexed part number, in the ordered part list of
the completion call.  (3) If the token is absent (or empty) on part `k`
after earlier successful parts, the upload fails with the `D3UploadError`
naming part `k + 1`. -/
theorem c7_etag_handling :
    stripQuotes "\"abc123\"" = "abc123" ∧
    (∀ fs env p fileName parts S r (et : Nat → String),
      fileName ≠ "" → fs p = some S → env.negotiate = .ok r →
      r.presignedUrls.length = actualPartsNat S parts →
      r.uploadId.getD "" ≠ "" →
      (∀ j, j < actualPartsNat S parts →
        env.put j = .ok (some (et j)) ∧ et j ≠ "") →
      (uploadFileDdd fs env (.path p) fileName parts).1.completeCalled
        = some ⟨r.fileKey, r.uploadId.getD "", r.objectName,
            (List.range' 0 (actualPartsNat S parts)).map
              (fun j => (stripQuotes (et j), j + 1))⟩) ∧
    (∀ fs env p fileName parts S r (et : Nat → String) (k : Nat)
        (o : Option String),
      fileName ≠ "" → fs p = some S → env.negotiate = .ok r →
      r.presignedUrls.length = actualPartsNat S parts →
      r.uploadId.getD "" ≠ "" →
      k < actualPartsNat S parts →
      (∀ j, j < k → env.put j = .ok (some (et j)) ∧ et j ≠ "") →
      env.put k = .ok o → o.getD "" = "" →
      (uploadFileDdd fs env (.path p) fileName parts).2
        = .error (.uploadError
            ("Failed to get ETag for part " ++ toString (k + 1)) none)) := by
  refine ⟨by decide, ?_, ?_⟩
  · intro fs env p fileName parts S r et hn hfs hneg hlen hu hput
    have hloop := uploadLoopDdd_parts env (ceilDiv S (actualPartsNat S parts))
      S (actualPartsNat S parts) et (actualPartsNat S parts) 0 0
      (fun j hj1 hj2 => hput j (by omega))
    cases hc : env.complete with
    | error ce =>
      simp [uploadFileDdd, hn, hfs, hneg, hlen, hu, hloop, hc]
    | ok u =>
      simp [uploadFileDdd, hn, hfs, hneg, hlen, hu, hloop, hc]
  · intro fs env p fileName parts S r et k o hn hfs hneg hlen hu hk hput hpk ho
    have hpk2 : env.put (0 + k) = .ok o := by
      rw [Nat.zero_add]; exact hpk
    have hloop := uploadLoopDdd_noetag env (ceilDiv S (actualPartsNat S parts))
      S (actualPartsNat S parts) et o k (actualPartsNat S parts) 0 0 hk
      (fun j hj1 hj2 => hput j (by omega)) hpk2 ho
    rw [Nat.zero_add] at hloop
    simp [uploadFileDdd, hn, hfs, hneg, hlen, hu, hloop, uploadCatch,
      JsError.isDdd]

/-- Witness for `c7_etag_handling`: a 10-byte file in two parts whose PUTs
answer with the quoted token; and the same upload where the second PUT
carries no `ETag` header. -/
theorem c7_etag_handling_witness :
    (uploadFileDdd (fun q => if q = "f" then some 10 else none)
        ⟨.ok ⟨"k", some "u", ["a", "b"], some "o"⟩,
         fun _ => .ok (some "\"abc123\""), .ok ()⟩
        (.path "f") "n" (some 2)).1.completeCalled
      = some ⟨"k", "u", some "o",
          (List.range' 0 (actualPartsNat 10 (some 2))).map
            (fun j => (stripQuotes "\"abc123\"", j + 1))⟩ ∧
    (uploadFileDdd (fun q => if q = "f" then some 10 else none)
        ⟨.ok ⟨"k", some "u", ["a", "b"], some "o"⟩,
         fun j => if j = 0 then .ok (some "\"abc123\"") else .ok none, .ok ()⟩
        (.path "f") "n" (some 2)).2
      = .error (.uploadError
          ("Failed to get ETag for part " ++ toString (1 + 1)) none) :=
  ⟨c7_etag_handling.2.1 (fun q => if q = "f" then some 10 else none)
      ⟨.ok ⟨"k", some "u", ["a", "b"], some "o"⟩,
       fun _ => .ok (some "\"abc123\""), .ok ()⟩
      "f" "n" (some 2) 10 ⟨"k", some "u", ["a", "b"], some "o"⟩
      (fun _ => "\"abc123\"") (by decide) rfl rfl (by decide) (by decide)
      (by
        intro j hj
        refine ⟨rfl, ?_⟩
        show ("\"abc123\"" : String) ≠ ""
        decide),
   c7_etag_handling.2.2 (fun q => if q = "f" then some 10 else none)
      ⟨.ok ⟨"k", some "u", ["a", "b"], some "o"⟩,
       fun j => if j = 0 then .ok (some "\"abc123\"") else .ok none, .ok ()⟩
      "f" "n" (some 2) 10 ⟨"k", some "u", ["a", "b"], some "o"⟩
      (fun _ => "\"abc123\"") 1 none (by decide) rfl rfl (by decide)
      (by decide) (by decide)
      (by
        intro j hj
        have hj0 : j = 0 := by omega
        rw [hj0]
        exact ⟨rfl, by decide⟩)
      rfl rfl⟩

/-! ## Claim C9: error propagation policy of `uploadFile` -/

/-- **C9.**  (1) A `D3APIError` from the negotiation call propagates out of
`uploadFile` unchanged (not re-wrapped), with no PUT issued and no
completion call.  (2) A `D3APIError` from a per-part PUT propagates out
unchanged, and no completion call is made.  (3) Any failure of the final
completion call — a typed library error (including a `D3APIError`) or an
untyped one — is re-raised as a `D3UploadError` whose message describes the
completion failure and which carries the original error as its attached
cause; the completion request itself was issued.  In every case the error
surfaces — nothing is swallowed. -/
theorem c9_error_propagation :
    (∀ fs env p fileName parts S (m : String) (st : Nat),
      fileName ≠ "" → fs p = some S →
      env.negotiate = .error (.apiError m st) →
      (uploadFileDdd fs env (.path p) fileName parts).2
          = .error (.apiError m st) ∧
      (uploadFileDdd fs env (.path p) fileName parts).1.puts = [] ∧
      (uploadFileDdd fs env (.path p) fileName parts).1.completeCalled
          = none) ∧
    (∀ fs env p fileName parts S r (et : Nat → String) (k : Nat)
        (m : String) (st : Nat),
      fileName ≠ "" → fs p = some S → env.negotiate = .ok r →
      r.presignedUrls.length = actualPartsNat S parts →
      r.uploadId.getD "" ≠ "" →
      k < actualPartsNat S parts →
      (∀ j, j < k → env.put j = .ok (some (et j)) ∧ et j ≠ "") →
      env.put k = .error (.apiError m st) →
      (uploadFileDdd fs env (.path p) fileName parts).2
          = .error (.apiError m st) ∧
      (uploadFileDdd fs env (.path p) fileName parts).1.completeCalled
          = none) ∧
    (∀ fs env p fileName parts S r (et : Nat → String) (ce : JsError),
      fileName ≠ "" → fs p = some S → env.negotiate = .ok r →
      r.presignedUrls.length = actualPartsNat S parts →
      r.uploadId.getD "" ≠ "" →
      (∀ j, j < actualPartsNat S parts →
        env.put j = .ok (some (et j)) ∧ et j ≠ "") →
      env.complete = .error ce →
      (uploadFileDdd fs env (.path p) fileName parts).2
          = .error (.uploadError
              ("Failed to complete upload: "
                ++ (if ce.isDdd then ce.rawMsg else ce.jsMsg)) (some ce)) ∧
      (uploadFileDdd fs env (.path p) fileName parts).1.completeCalled
          ≠ none) := by
  refine ⟨?_, ?_, ?_⟩
  · intro fs env p fileName parts S m st hn hfs hneg
    simp [uploadFileDdd, hn, hfs, hneg, uploadCatch, JsError.isDdd]
  · intro fs env p fileName parts S r et k m st hn hfs hneg hlen hu hk hput hpk
    have hpk2 : env.put (0 + k) = .error (.apiError m st) := by
      rw [Nat.zero_add]; exact hpk
    have hloop := uploadLoopDdd_put_err env
      (ceilDiv S (actualPartsNat S parts)) S (actualPartsNat S parts) et
      (.apiError m st) k (actualPartsNat S parts) 0 0 hk
      (fun j hj1 hj2 => hput j (by omega)) hpk2
    simp [uploadFileDdd, hn, hfs, hneg, hlen, hu, hloop, uploadCatch,
      JsError.isDdd]
  · intro fs env p fileName parts S r et ce hn hfs hneg hlen hu hput hc
    have hloop := uploadLoopDdd_parts env
      (ceilDiv S (actualPartsNat S parts)) S (actualPartsNat S parts) et
      (actualPartsNat S parts) 0 0 (fun j hj1 hj2 => hput j (by omega))
    simp [uploadFileDdd, hn, hfs, hneg, hlen, hu, hloop, hc, uploadCatch,
      completeWrap, JsError.isDdd]
    cases ce <;> simp [JsError.isDdd]

/-- Witness for `c9_error_propagation`: a 10-byte two-part upload where, in
turn, the negotiation fails with an API error, the second PUT fails with an
API error, and the completion call fails with an API error. -/
theorem c9_error_propagation_witness :
    (uploadFileDdd (fun q => if q = "f" then some 10 else none)
        ⟨.error (.apiError "boom" 500), fun _ => .ok (some "e"), .ok ()⟩
        (.path "f") "n" (some 2)).2 = .error (.apiError "boom" 500) ∧
    (uploadFileDdd (fun q => if q = "f" then some 10 else none)
        ⟨.ok ⟨"k", some "u", ["a", "b"], none⟩,
         fun j => if j = 0 then .ok (some "e") else .error (.apiError "putfail" 403),
         .ok ()⟩
        (.path "f") "n" (some 2)).2 = .error (.apiError "putfail" 403) ∧
    (uploadFileDdd (fun q => if q = "f" then some 10 else none)
        ⟨.ok ⟨"k", some "u", ["a", "b"], none⟩, fun _ => .ok (some "e"),
         .error (.apiError "finfail" 500)⟩
        (.path "f") "n" (some 2)).2
      = .error (.uploadError
          ("Failed to complete upload: "
            ++ (if (JsError.apiError "finfail" 500).isDdd then
                  (JsError.apiError "finfail" 500).rawMsg
                else (JsError.apiError "finfail" 500).jsMsg))
          (some (.apiError "finfail" 500))) :=
  ⟨(c9_error_propagation.1 (fun q => if q = "f" then some 10 else none)
      ⟨.error (.apiError "boom" 500), fun _ => .ok (some "e"), .ok ()⟩
      "f" "n" (some 2) 10 "boom" 500 (by decide) rfl rfl).1,
   (c9_error_propagation.2.1 (fun q => if q = "f" then some 10 else none)
      ⟨.ok ⟨"k", some "u", ["a", "b"], none⟩,
       fun j => if j = 0 then .ok (some "e") else .error (.apiError "putfail" 403),
       .ok ()⟩
      "f" "n" (some 2) 10 ⟨"k", some "u", ["a", "b"], none⟩ (fun _ => "e") 1
      "putfail" 403 (by decide) rfl rfl (by decide) (by decide) (by decide)
      (by
        intro j hj
        have hj0 : j = 0 := by omega
        rw [hj0]
        exact ⟨rfl, by decide⟩)
      rfl).1,
   (c9_error_propagation.2.2 (fun q => if q = "f" then some 10 else none)
      ⟨.ok ⟨"k", some "u", ["a", "b"], none⟩, fun _ => .ok (some "e"),
       .error (.apiError "finfail" 500)⟩
      "f" "n" (some 2) 10 ⟨"k", some "u", ["a", "b"], none⟩ (fun _ => "e")
      (.apiError "finfail" 500) (by decide) rfl rfl (by decide) (by decide)
      (by
        intro j hj
        refine ⟨rfl, ?_⟩
        show ("e" : String) ≠ ""
        decide)
      rfl).1⟩

/-! ## Claim C6: progress monotonicity -/

theorem chain'_range' {R : Nat → Nat → Prop} :
    ∀ (n s : Nat), (∀ j, s ≤ j → j + 1 < s + n → R j (j + 1)) →
      List.Chain' R (List.range' s n)
  | 0, s, _ => by simp
  | 1, s, _ => by simp
  | n + 2, s, h => by
    rw [List.range'_succ, List.range'_succ]
    apply List.chain'_cons.mpr
    refine ⟨h s (Nat.le_refl s) (by omega), ?_⟩
    rw [← List.range'_succ]
    exact chain'_range' (n + 1) (s + 1) (fun j hj1 hj2 => h j (by omega) (by omega))

theorem jsRound_full {S : Nat} (hS : 0 < S) :
    jsRound (((S : Nat) : Int) * 100) S = 100 := by
  unfold jsRound
  have h1 : ((2 : Int) * (((S : Nat) : Int) * 100) + ((S : Nat) : Int))
      = ((201 * S : Nat) : Int) := by push_cast; ring
  have h2 : ((2 : Int) * ((S : Nat) : Int)) = ((2 * S : Nat) : Int) := by
    push_cast; ring
  rw [h1, h2, Int.fdiv_eq_ediv _ (by positivity)]
  have h3 : (201 * S) / (2 * S) = 100 := by
    have h2S : 0 < 2 * S := by omega
    have h4 : 201 * S = S + (2 * S) * 100 := by ring
    rw [h4, Nat.add_mul_div_left _ _ h2S, Nat.div_eq_of_lt (by omega)]
  exact_mod_cast congrArg (fun n => ((n : Nat) : Int)) h3

/-- Closed form of the progress reports of the `D3Client` part loop when
every PUT succeeds and every byte range is nonempty: after part `j`
(0-indexed) the loop has uploaded exactly `min ((j + 1) * c) S` bytes. -/
theorem uploadLoopD3_progress (env : D3Env) (c S N : Nat)
    (hput : ∀ j, env.put j = .ok ()) (hcontig : (N - 1) * c < S) :
    ∀ (rem i : Nat) (bytes : Int), i + rem = N →
      bytes = ((min (i * c) S : Nat) : Int) →
      (uploadLoopD3 env c S N i bytes rem).2.1
        = (List.range' i rem).map
            (fun j => mkProgress (j + 1) N ((min ((j + 1) * c) S : Nat) : Int) S) := by
  intro rem
  induction rem with
  | zero => intro i bytes _ _; simp [uploadLoopD3]
  | succ n ih =>
    intro i bytes hiN hbytes
    have hic : i * c ≤ S := by
      have h1 : i * c ≤ (N - 1) * c := Nat.mul_le_mul_right c (by omega)
      omega
    have hb2 : bytes + ((partEnd S c i : Int) - (partStart c i : Int))
        = ((min ((i + 1) * c) S : Nat) : Int) := by
      unfold partEnd partStart
      have hstep : i * c + c = (i + 1) * c := by ring
      rw [hbytes, Nat.min_eq_left hic, hstep]
      push_cast [Nat.min_def]
      split <;> ring
    have ih2 := ih (i + 1)
      (bytes + ((partEnd S c i : Int) - (partStart c i : Int)))
      (by omega) hb2
    simp only [uploadLoopD3, hput i]
    rw [List.range'_succ, List.map_cons, ih2, hb2]

/-- **C6 (counterexample).**  A 1-byte file uploaded with `parts: 2` (all
PUTs succeeding) produces two `onProgress` calls whose `bytesUploaded` are
`1` and `1` — not strictly increasing, refuting the claim.  (The second
part's byte range is `[1, 1)`, empty, so no bytes are added.) -/
theorem c6_counterexample :
    ¬ List.Chain' (fun a b => a.bytesUploaded < b.bytesUploaded)
      ((uploadFileD3 (fun q => if q = "f" then some 1 else none)
          ⟨.ok ⟨"k", ["a", "b"]⟩, fun _ => .ok ()⟩
          (.path "f") "n" (some 2)).1.progress) := by
  intro h
  have hP : (uploadFileD3 (fun q => if q = "f" then some 1 else none)
          ⟨.ok ⟨"k", ["a", "b"]⟩, fun _ => .ok ()⟩
          (.path "f") "n" (some 2)).1.progress
      = [⟨1, 2, 1, 1, some 100⟩, ⟨2, 2, 1, 1, some 100⟩] := by rfl
  rw [hP] at h
  have h2 := (List.chain'_cons.mp h).1
  simp at h2

/-- **C6 (amended).**  Provided every computed byte range is nonempty
(`(N - 1) * ceil(S / N) < S`, a proviso that always holds when the part
count is not caller-supplied and `S > 0`), an upload whose PUTs
all succeed reports progress once per part; successive `onProgress` calls
report strictly increasing `bytesUploaded` and strictly increasing
`currentPart`, and the final call reports `bytesUploaded = totalBytes = S`
and `percentage = 100`. -/
theorem c6_progress_monotone (fs : String → Option Nat) (env : D3Env)
    (p fileName : String) (parts : Option Int) (S : Nat)
    (r : D3NegotiateResponse) (hn : fileName ≠ "") (hfs : fs p = some S)
    (hneg : env.negotiate = .ok r)
    (hlen : r.presignedUrls.length = actualPartsNat S parts)
    (hput : ∀ j, env.put j = .ok ())
    (hcontig : (actualPartsNat S parts - 1)
        * ceilDiv S (actualPartsNat S parts) < S) :
    (uploadFileD3 fs env (.path p) fileName parts).1.progress.length
        = actualPartsNat S parts ∧
    List.Chain'
      (fun a b => a.bytesUploaded < b.bytesUploaded ∧ a.currentPart < b.currentPart)
      (uploadFileD3 fs env (.path p) fileName parts).1.progress ∧
    (uploadFileD3 fs env (.path p) fileName parts).1.progress.getLast?
        = some ⟨actualPartsNat S parts, actualPartsNat S parts,
            ((S : Nat) : Int), S, some 100⟩ := by
  set N := actualPartsNat S parts with hN
  set c := ceilDiv S N with hc
  have hN1 : 1 ≤ N := one_le_actualPartsNat S parts
  have hSNc : S ≤ N * c := le_mul_ceilDiv S (by omega)
  have hS0 : 0 < S := by omega
  have hc0 : 0 < c := by
    by_contra hcon
    have hcz : c = 0 := by omega
    rw [hcz] at hSNc
    omega
  have hloopNone : ∀ (rem i : Nat) (bytes : Int),
      (uploadLoopD3 env c S N i bytes rem).2.2 = none := by
    intro rem
    induction rem with
    | zero => intro i bytes; simp [uploadLoopD3]
    | succ n ih => intro i bytes; simp [uploadLoopD3, hput i, ih]
  have hprog := uploadLoopD3_progress env c S N hput hcontig N 0 0
    (by omega) (by simp)
  have hP : (uploadFileD3 fs env (.path p) fileName parts).1.progress
      = (List.range' 0 N).map
          (fun j => mkProgress (j + 1) N ((min ((j + 1) * c) S : Nat) : Int) S) := by
    simp [uploadFileD3, uploadFileD3Sized, hn, hfs, hneg, hlen,
      hloopNone N 0 0, hprog]
  rw [hP]
  refine ⟨by simp, ?_, ?_⟩
  · apply (List.chain'_map _).mpr
    apply chain'_range'
    intro j hj1 hj2
    refine ⟨?_, ?_⟩ <;> simp only [mkProgress]
    · show ((min ((j + 1) * c) S : Nat) : Int) < ((min ((j + 1 + 1) * c) S : Nat) : Int)
      have h1 : (j + 1) * c < (j + 1 + 1) * c :=
        (Nat.mul_lt_mul_right hc0).mpr (by omega)
      have h2 : (j + 1) * c ≤ (N - 1) * c := Nat.mul_le_mul_right c (by omega)
      have h3 : min ((j + 1) * c) S < min ((j + 1 + 1) * c) S := by omega
      exact_mod_cast h3
    · show j + 1 < j + 1 + 1
      omega
  · rw [List.getLast?_map, List.getLast?_range']
    have hNne : ¬ (N = 0) := by omega
    simp only [hNne, if_false, Option.map_some']
    have hidx : 0 + N - 1 + 1 = N := by omega
    rw [hidx]
    have hminN : min (N * c) S = S := Nat.min_eq_right hSNc
    rw [hminN]
    unfold mkProgress
    have hS0n : ¬ (S = 0) := by omega
    simp [hS0n, jsRound_full hS0]

/-- Witness for `c6_progress_monotone`: a 10-byte file in two parts, all
PUTs succeeding — progress `(1, 5), (2, 10)`. -/
theorem c6_progress_monotone_witness :
    (uploadFileD3 (fun q => if q = "f" then some 10 else none)
        ⟨.ok ⟨"k", ["a", "b"]⟩, fun _ => .ok ()⟩
        (.path "f") "n" (some 2)).1.progress.length
      = actualPartsNat 10 (some 2) ∧
    List.Chain'
      (fun a b => a.bytesUploaded < b.bytesUploaded ∧ a.currentPart < b.currentPart)
      (uploadFileD3 (fun q => if q = "f" then some 10 else none)
        ⟨.ok ⟨"k", ["a", "b"]⟩, fun _ => .ok ()⟩
        (.path "f") "n" (some 2)).1.progress ∧
    (uploadFileD3 (fun q => if q = "f" then some 10 else none)
        ⟨.ok ⟨"k", ["a", "b"]⟩, fun _ => .ok ()⟩
        (.path "f") "n" (some 2)).1.progress.getLast?
      = some ⟨actualPartsNat 10 (some 2), actualPartsNat 10 (some 2),
          ((10 : Nat) : Int), 10, some 100⟩ :=
  c6_progress_monotone (fun q => if q = "f" then some 10 else none)
    ⟨.ok ⟨"k", ["a", "b"]⟩, fun _ => .ok ()⟩ "f" "n" (some 2) 10
    ⟨"k", ["a", "b"]⟩ (by decide) rfl rfl (by decide) (fun j => rfl) (by decide)
